import Mathlib

/-!
Verification development for the chromium-jumpstart repository.

The Python sources `src/jumpstart/config.py` and `src/jumpstart/init.py` are
shallowly embedded below.  Pure logic (flag translation, validation decisions,
truthiness, string stripping) is translated function-for-function; I/O is made
explicit: the file system becomes an association list from paths to parsed
JSON documents (the `json.dump`/`json.load` pair is modelled as exact
inverses, which is the json library's contract for JSON-representable
values), a spawned process becomes its observable result (exit status or
exception), and `exit(1)` becomes the `Except.error` branch of a result type.
-/

namespace Jumpstart

/-! ## Python primitives -/

/-- Whitespace characters stripped by Python `str.strip()` (ASCII range). -/
def pyIsSpace (c : Char) : Bool :=
  c = ' ' || c = '\t' || c = '\n' || c = '\r' || c = '\x0b' || c = '\x0c'

/-- Python `str.strip()` on the left: drop leading whitespace. -/
def pyLStrip (l : List Char) : List Char := l.dropWhile pyIsSpace

/-- Python `str.strip()` on the right: drop trailing whitespace. -/
def pyRStrip (l : List Char) : List Char := (l.reverse.dropWhile pyIsSpace).reverse

/-- Python `str.strip()`: drop leading and trailing whitespace. -/
def pyStrip (s : String) : String := ⟨pyRStrip (pyLStrip s.data)⟩

/-- A string carries no trailing whitespace. -/
def noTrailingWhitespace (s : String) : Bool :=
  match s.data.reverse with
  | [] => true
  | c :: _ => !pyIsSpace c

/-- Python `str(b)` for a bool: capitalised `True` / `False`. -/
def pyBoolStr : Bool → String
  | true => "True"
  | false => "False"

/-- Whether `needle` occurs as a contiguous run inside `hay`. -/
def charListContains (needle : List Char) : List Char → Bool
  | [] => needle.isEmpty
  | c :: t => needle.isPrefixOf (c :: t) || charListContains needle t

/-- Substring test: Python `sub in s` for strings. -/
def containsSubstr (s sub : String) : Bool := charListContains sub.data s.data

/-- Python `str.lower()` (ASCII case folding suffices for the marker scan). -/
def pyToLower (s : String) : String := ⟨s.data.map Char.toLower⟩

/-! ## JSON documents

Configuration documents are parsed JSON values (`json.load` results). -/

/-- A JSON value as produced by Python's `json.load`. -/
inductive Json where
  | null : Json
  | bool (b : Bool) : Json
  | num (n : Int) : Json
  | str (s : String) : Json
  | arr (elems : List Json) : Json
  | obj (fields : List (String × Json)) : Json

/-- Python truthiness of a JSON value (`if config[...]:`). -/
def jsonTruthy : Json → Bool
  | .null => false
  | .bool b => b
  | .num n => n != 0
  | .str s => s != ""
  | .arr elems => !elems.isEmpty
  | .obj fields => !fields.isEmpty

/-- Whether a JSON value is the given string (Python `==` against a `str`). -/
def jsonIsStr (j : Json) (s : String) : Bool :=
  match j with
  | .str t => t == s
  | _ => false

/-- Python `value != "O0"`: false only when the value is exactly the string. -/
def jsonNeStrO0 (j : Json) : Bool := !jsonIsStr j "O0"

/-- Python `key in config` on a `json.load` result: membership for dicts and
lists, substring for strings, `TypeError` (modelled as `none`) otherwise. -/
def pyContains (key : String) : Json → Option Bool
  | .obj fields => some (fields.any (fun kv => kv.1 == key))
  | .arr elems => some (elems.any (fun j => jsonIsStr j key))
  | .str s => some (containsSubstr s key)
  | _ => none

/-- Python `config[key]`: `KeyError` on a missing dict key, `TypeError` when
indexing a non-dict with a string key. -/
def getKey (j : Json) (key : String) : Except String Json :=
  match j with
  | .obj fields =>
      match fields.lookup key with
      | some v => .ok v
      | none => .error ("KeyError: " ++ key)
  | _ => .error "TypeError"

/-- Whether an `Except` computation succeeded. -/
def exceptOk {α : Type} : Except String α → Bool
  | .ok _ => true
  | .error _ => false

/-! ## config.py -/

/-- Fixed configuration file name (`CONFIG_FILENAME` in config.py). -/
def CONFIG_FILENAME : String := "jumpstart.config.json"

/-- `os.path.join` for the shapes used in this code base: a relative second
component is appended after a separator. -/
def pathJoin (a b : String) : String :=
  if a = "" then b
  else if a.data.getLast? = some '/' then a ++ b
  else a ++ "/" ++ b

/-- The `DEFAULT_CONFIG` dictionary of config.py, transcribed field by field. -/
def DEFAULT_CONFIG : Json :=
  .obj [
    ("metadata", .obj [
      ("name", .str ""),
      ("version", .str "0.1"),
      ("description", .str "Custom Chromium build configuration"),
      ("base_chromium_version", .str "latest"),
      ("init", .obj [
        ("project_dir", .str ""),
        ("chromium_src", .str ""),
        ("depot_tools", .bool false)])]),
    ("paths", .obj [
      ("chromium_src", .str "")]),
    ("features", .obj [
      ("security", .obj [
        ("sandboxing", .bool true),
        ("site_isolation", .bool true)]),
      ("performance", .obj [
        ("gpu_acceleration", .bool true)]),
      ("privacy", .obj [
        ("tracking_protection", .bool true),
        ("ad_blocking", .bool true)])]),
    ("build", .obj [
      ("optimization_level", .str "O2"),
      ("disable_google_update_check", .bool true),
      ("is_debug", .bool false),
      ("use_jumbo_build", .bool true),
      ("thin_lto", .bool true),
      ("custom_build_flags", .null)])]

/-- `generate_config()`: returns the default configuration. -/
def generate_config : Json := DEFAULT_CONFIG

/-- `validate_config(config_path)`.  The argument is the outcome of opening
and parsing the file: `none` when the file is unreadable or malformed (the
`except` branch), `some config` when `json.load` produced a value.  The
membership checks run inside the same `try`, so a `TypeError` from `in` on a
non-container also lands in the `except` branch. -/
def validate_config (parsed : Option Json) : Json :=
  match parsed with
  | none => generate_config
  | some config =>
      match pyContains "metadata" config with
      | none => generate_config
      | some hasMetadata =>
          if !hasMetadata then generate_config
          else
            match pyContains "paths" config with
            | none => generate_config
            | some hasPaths =>
                if !hasPaths then generate_config else config

/-- The file system as seen by config.py: parsed JSON documents keyed by
path; `lookup` finds the most recent write. -/
abbrev FileStore := List (String × Json)

/-- `load_config(project_path)`: read `jumpstart.config.json` from the
project directory; on a missing file, warn and return the empty mapping. -/
def load_config (fs : FileStore) (project_path : String) : Json :=
  match fs.lookup (pathJoin project_path CONFIG_FILENAME) with
  | some j => j
  | none => .obj []

/-- `write_config(project_path, config)`: serialize `config` as the project's
configuration file, overwriting any existing file at that path. -/
def write_config (fs : FileStore) (project_path : String) (config : Json) : FileStore :=
  (pathJoin project_path CONFIG_FILENAME, config) :: fs

/-! ## init.py: the command runner -/

/-- Result of `subprocess.run`: captured streams and the exit code. -/
structure ProcResult where
  stdout : String
  stderr : String
  returncode : Int

/-- `run_command(command, cwd, check)`.  The `Except.error` branch models the
`exit(1)` call: the error message logged (the command and its stderr) and the
process exit status 1.  The `Except.ok` branch is the value returned to the
caller: `result.stdout.strip()`. -/
def run_command (command : String) (r : ProcResult) (check : Bool) : Except (String × Nat) String :=
  if r.returncode != 0 && check then
    .error ("Command failed: " ++ command ++ "\n" ++ r.stderr, 1)
  else
    .ok (pyStrip r.stdout)

/-! ## init.py: the clone monitor

`perform_git_clone` hands a `read` callback to `pty.spawn`.  The callback
loops on blocking `os.read` calls; whenever a chunk of output arrives it
refreshes `last_output_time`, then checks for a fatal marker, then compares
`time.time() - last_output_time` against `STALL_TIMEOUT`.  Each observed
chunk is therefore modelled with the two clock samples the loop takes for
it: `tSet`, read when `last_output_time` is assigned, and `tChk`, read
microseconds later at the stall comparison (no blocking call separates the
two).  During a silent gap no chunk exists and the loop sits inside
`os.read`, executing nothing.  An empty read ends the loop. -/

/-- Stall threshold in seconds (`STALL_TIMEOUT` in init.py). -/
def STALL_TIMEOUT : Nat := 120

/-- One chunk of clone output as seen by the `read` callback: its arrival
time on the wire, the two clock samples taken while handling it, and the
decoded text. -/
structure Chunk where
  arrival : Nat
  tSet : Nat
  tChk : Nat
  data : String

/-- How the `read` callback loop ends. -/
inductive ReadOutcome where
  | eof : ReadOutcome
  | fatalDetected : ReadOutcome
  | stallDetected : ReadOutcome
deriving DecidableEq

/-- Python `"fatal" in output.lower()`. -/
def containsFatal (s : String) : Bool := containsSubstr (pyToLower s) "fatal"

/-- The `read` callback's loop over the chunks it is handed.  The fatal check
runs before the stall check on every iteration, and the stall comparison uses
the `last_output_time` assigned in the same iteration. -/
def readLoop : List Chunk → ReadOutcome
  | [] => .eof
  | c :: rest =>
      if containsFatal c.data then .fatalDetected
      else if STALL_TIMEOUT < c.tChk - c.tSet then .stallDetected
      else readLoop rest

/-- What `pty.spawn(cmd, read)` produced: the `os.waitpid` status of the
child, or an exception (caught by `perform_git_clone`, which returns
`False`). -/
inductive SpawnResult where
  | status (n : Nat) : SpawnResult
  | exn : SpawnResult

/-- The `os.waitpid` status word for a child that exited normally with the
given exit code: the code shifted left eight bits. -/
def waitpidStatus (exitCode : Nat) : Nat := 256 * exitCode

/-- `perform_git_clone`'s return value: the `pty.spawn` status on the normal
path, Python `False` when `pty.spawn` raised. -/
inductive CloneReturn where
  | int (n : Nat) : CloneReturn
  | pyFalse : CloneReturn

/-- `perform_git_clone(chromium_src_dir)` reduced to its observable result. -/
def perform_git_clone (r : SpawnResult) : CloneReturn :=
  match r with
  | .status n => .int n
  | .exn => .pyFalse

/-- Python truthiness of `perform_git_clone`'s return value, as consumed by
`if not success:` in `fetch_chromium_source`. -/
def cloneReturnTruthy : CloneReturn → Bool
  | .int n => n != 0
  | .pyFalse => false

/-! ## init.py: fetch_chromium_source -/

/-- The branch `fetch_chromium_source` takes on one attempt: return early
because the directory exists, enter the not-success branch (the
`Delete ... and re-init?` prompt, which can recurse or `exit(1)`), or
proceed to the `_bad_scm` corruption check and `gclient sync`. -/
inductive FetchDecision where
  | skippedExisting : FetchDecision
  | failureBranch : FetchDecision
  | corruptionCheck : FetchDecision
deriving DecidableEq

/-- The control-flow decision of one `fetch_chromium_source` attempt, given
whether the source directory exists, which fetch method was selected, and
what the spawned clone produced (`perform_depot_fetch` always returns
`False`). -/
def fetch_chromium_source_decision (dirExists depotFetch : Bool)
    (r : SpawnResult) : FetchDecision :=
  if dirExists then .skippedExisting
  else
    let success := if depotFetch then false else cloneReturnTruthy (perform_git_clone r)
    if !success then .failureBranch else .corruptionCheck

/-! ## init.py: main's provisioning check and project scaffolding -/

/-- The condition under which `main` runs the acquisition branch
(depot tools setup, git config, `fetch_chromium_source`, OS dependencies,
marker creation): the source directory or the `.jumpstart_installed` marker
is missing. -/
def provisioningNeeded (dirExists markerExists : Bool) : Bool :=
  !dirExists || !markerExists

/-- Whether the `git clone` command is actually executed on a run: `main`
must take the acquisition branch, and `fetch_chromium_source` must not
return early (directory absent) nor divert to `perform_depot_fetch`. -/
def cloneCommandRuns (dirExists markerExists depotFetch : Bool) : Bool :=
  provisioningNeeded dirExists markerExists && !dirExists && !depotFetch

/-- `create_project_directory(project_name, base_path)`: `None` when the
joined path already exists on the file system (here: the list of existing
paths), otherwise the created project path. -/
def create_project_directory (fs : List String) (project_name base_path : String) :
    Option String :=
  let project_path := pathJoin base_path project_name
  if fs.contains project_path then none else some project_path

/-- The exit status of `main`'s project phase: when
`create_project_directory` returns `None` the `if project_path:` block is
skipped and `main` falls through, so the interpreter exits 0; otherwise the
remaining steps run and a failing critical command aborts with status 1. -/
def mainScaffoldExit (fs : List String) (project_name base_path : String)
    (laterStepFails : Bool) : Nat :=
  match create_project_directory fs project_name base_path with
  | none => 0
  | some _ => if laterStepFails then 1 else 0

/-! ## init.py: apply_build_flags -/

/-- The token Python appends for `custom_build_flags` (always a string in a
JSON configuration; a non-string value would only fault later, in the
`" ".join` outside this function). -/
def jsonToken : Json → String
  | .str s => s
  | _ => ""

/-- `apply_build_flags(config, chromium_src_dir)` up to the flag list it
builds (the subsequent `gn gen` invocation goes through `run_command`).
Every `config["build"][...]` subscript is a fallible `getKey`; the guards
are Python truthiness tests, and the `is_optimized` value interpolates the
Python bool `... != "O0"`, rendered by `str` as `True` / `False`. -/
def apply_build_flags (config : Json) : Except String (List String) :=
  match getKey config "build" with
  | .error e => .error e
  | .ok build =>
    match getKey build "optimization_level" with
    | .error e => .error e
    | .ok opt =>
      let flags1 := if jsonTruthy opt then
        ["is_optimized=" ++ pyBoolStr (jsonNeStrO0 opt)] else []
      match getKey build "is_debug" with
      | .error e => .error e
      | .ok dbg =>
        let flags2 := flags1 ++ [if jsonTruthy dbg then "is_debug=true" else "is_debug=false"]
        match getKey build "use_jumbo_build" with
        | .error e => .error e
        | .ok jumbo =>
          let flags3 := flags2 ++ (if jsonTruthy jumbo then ["use_jumbo_build=true"] else [])
          match getKey build "thin_lto" with
          | .error e => .error e
          | .ok lto =>
            let flags4 := flags3 ++ (if jsonTruthy lto then ["thin_lto=true"] else [])
            match getKey build "disable_google_update_check" with
            | .error e => .error e
            | .ok gup =>
              let flags5 := flags4 ++
                (if jsonTruthy gup then ["disable_google_update_check=true"] else [])
              match getKey build "custom_build_flags" with
              | .error e => .error e
              | .ok custom =>
                .ok (flags5 ++ (if jsonTruthy custom then [jsonToken custom] else []))

/-! ## Concrete documents used in the statements below -/

/-- The build section of the spec's first translator test vector:
`O0`, everything else off, no custom flags. -/
def buildO0AllOff : Json :=
  .obj [("build", .obj [
    ("optimization_level", .str "O0"),
    ("is_debug", .bool false),
    ("use_jumbo_build", .bool false),
    ("thin_lto", .bool false),
    ("disable_google_update_check", .bool false),
    ("custom_build_flags", .null)])]

/-- Same build section with `optimization_level` set to `O1`. -/
def buildO1AllOff : Json :=
  .obj [("build", .obj [
    ("optimization_level", .str "O1"),
    ("is_debug", .bool false),
    ("use_jumbo_build", .bool false),
    ("thin_lto", .bool false),
    ("disable_google_update_check", .bool false),
    ("custom_build_flags", .null)])]

/-- Same build section with an empty (falsy) `optimization_level`. -/
def buildEmptyLevel : Json :=
  .obj [("build", .obj [
    ("optimization_level", .str ""),
    ("is_debug", .bool false),
    ("use_jumbo_build", .bool false),
    ("thin_lto", .bool false),
    ("disable_google_update_check", .bool false),
    ("custom_build_flags", .null)])]

/-- A document that passes `validate_config`'s presence check but carries no
`build` section. -/
def docMetaPaths : Json :=
  .obj [
    ("metadata", .obj [("name", .str "demo")]),
    ("paths", .obj [("chromium_src", .str "/src/chromium")])]

/-! ## Helper lemmas -/

/-- The first element surviving `dropWhile p` does not satisfy `p`. -/
theorem dropWhile_head_not (p : Char → Bool) (l : List Char) (c : Char) (t : List Char)
    (h : l.dropWhile p = c :: t) : p c = false := by
  induction l with
  | nil => simp [List.dropWhile] at h
  | cons a l ih =>
    rw [List.dropWhile_cons] at h
    by_cases hp : p a = true
    · rw [if_pos hp] at h
      exact ih h
    · rw [if_neg hp] at h
      cases h
      simpa using hp

/-- `pyStrip` leaves no trailing whitespace on its output. -/
theorem noTrailingWhitespace_pyStrip (s : String) :
    noTrailingWhitespace (pyStrip s) = true := by
  have hrev : (pyStrip s).data.reverse = (pyLStrip s.data).reverse.dropWhile pyIsSpace := by
    simp [pyStrip, pyRStrip]
  rcases hd : (pyStrip s).data.reverse with _ | ⟨c, t⟩
  · simp [noTrailingWhitespace, hd]
  · have hp : pyIsSpace c = false :=
      dropWhile_head_not pyIsSpace ((pyLStrip s.data).reverse) c t (hrev.symm.trans hd)
    simp [noTrailingWhitespace, hd, hp]

/-! ## Claims -/

/-- Claim C6: `validate_config` returns either the parsed document completely
unchanged (exactly when it parsed and its membership checks find both the
`metadata` and the `paths` key) or the default configuration
`generate_config` — in particular an unreadable or malformed file, and any
parsed document for which either membership check does not come out true
(key missing, or `in` raising on a non-container), yield the default.  It
never returns a partial merge of the two, and — being a total function in
this embedding, every `except` path included — it never terminates the
process. -/
theorem validate_config_parsed_or_default :
    (validate_config none = generate_config) ∧
    (∀ j : Json, validate_config (some j) = j ∨ validate_config (some j) = generate_config) ∧
    (∀ j : Json, pyContains "metadata" j = some true → pyContains "paths" j = some true →
      validate_config (some j) = j) ∧
    (∀ j : Json,
      ¬(pyContains "metadata" j = some true ∧ pyContains "paths" j = some true) →
      validate_config (some j) = generate_config) := by
  refine ⟨rfl, ?_, ?_, ?_⟩
  · intro j
    rcases hm : pyContains "metadata" j with _ | b
    · right
      simp [validate_config, hm]
    · cases b
      · right
        simp [validate_config, hm]
      · rcases hp : pyContains "paths" j with _ | b2
        · right
          simp [validate_config, hm, hp]
        · cases b2
          · right
            simp [validate_config, hm, hp]
          · left
            simp [validate_config, hm, hp]
  · intro j h1 h2
    simp [validate_config, h1, h2]
  · intro j h
    rcases hm : pyContains "metadata" j with _ | b
    · simp [validate_config, hm]
    · cases b
      · simp [validate_config, hm]
      · rcases hp : pyContains "paths" j with _ | b2
        · simp [validate_config, hm, hp]
        · cases b2
          · simp [validate_config, hm, hp]
          · exact absurd ⟨hm, hp⟩ h

/-- Witness for C6: a well-formed document comes back unchanged, and a
document missing the `paths` key comes back as the default. -/
theorem validate_config_parsed_or_default_witness :
    validate_config (some docMetaPaths) = docMetaPaths ∧
    validate_config (some (Json.obj [("metadata", Json.obj [])])) = generate_config :=
  ⟨validate_config_parsed_or_default.2.2.1 docMetaPaths rfl rfl,
   validate_config_parsed_or_default.2.2.2 (Json.obj [("metadata", Json.obj [])])
     (by decide)⟩

/-- Claim C7: writing a configuration with `write_config` and loading it back
with `load_config` from the same project directory yields the same document
(`json.dump` / `json.load` modelled as exact inverses on JSON values). -/
theorem write_then_load_roundtrip (fs : FileStore) (projectDir : String) (config : Json) :
    load_config (write_config fs projectDir config) projectDir = config := by
  simp [load_config, write_config, List.lookup]

/-- Claim C8: `run_command` with `check` and a non-zero exit code logs the
command and stderr and aborts the process with status 1 (the `Except.error`
branch, never a return); whenever it does return a string, that string has no
trailing whitespace. -/
theorem run_command_aborts_or_strips (command : String) (r : ProcResult) :
    (r.returncode ≠ 0 →
      run_command command r true =
        .error ("Command failed: " ++ command ++ "\n" ++ r.stderr, 1)) ∧
    (∀ (check : Bool) (s : String), run_command command r check = .ok s →
      noTrailingWhitespace s = true) := by
  constructor
  · intro h
    have hb : (r.returncode != 0) = true := by simpa [bne_iff_ne] using h
    simp [run_command, hb]
  · intro check s hs
    by_cases hc : (r.returncode != 0 && check) = true
    · simp [run_command, hc] at hs
    · simp [run_command, hc] at hs
      rw [← hs]
      exact noTrailingWhitespace_pyStrip _

/-- Witness for C8: a failing `gclient sync` aborts with the logged command
and stderr; a succeeding command returns its stripped stdout. -/
theorem run_command_aborts_or_strips_witness :
    run_command "gclient sync --jobs 16 --nohooks" ⟨" done \n", "network unreachable", 1⟩ true
      = .error ("Command failed: gclient sync --jobs 16 --nohooks\nnetwork unreachable", 1) ∧
    noTrailingWhitespace "done" = true :=
  ⟨(run_command_aborts_or_strips "gclient sync --jobs 16 --nohooks"
      ⟨" done \n", "network unreachable", 1⟩).1 (by decide),
   (run_command_aborts_or_strips "which fetch" ⟨" done \n", "", 0⟩).2 true "done" rfl⟩

/-- Claim C1: contrary to the claim, a clone child that exits with status 0
(and no fatal marker) does not proceed to the corruption check: `pty.spawn`
returns the `os.waitpid` status, status 0 is falsy in Python, so
`if not success:` sends the clean exit into the `Delete ... and re-init?`
failure branch — while a child exiting 1 (status 256, truthy) is the run
that reaches the corruption check and `gclient sync`. -/
theorem clean_exit_enters_failure_branch :
    fetch_chromium_source_decision false false (.status (waitpidStatus 0)) =
      .failureBranch ∧
    fetch_chromium_source_decision false false (.status (waitpidStatus 0)) ≠
      .corruptionCheck ∧
    fetch_chromium_source_decision false false (.status (waitpidStatus 1)) =
      .corruptionCheck := by
  decide

/-- Claim C2 (counterexample): with the provisioning marker absent but the
source directory present, `main` is forced into the acquisition branch, yet
`fetch_chromium_source` returns at its existence guard and the clone command
is never run — directory existence alone does skip the acquisition. -/
theorem marker_absent_dir_present_skips_clone :
    provisioningNeeded true false = true ∧
    fetch_chromium_source_decision true false (.status 0) = .skippedExisting ∧
    cloneCommandRuns true false false = false := by
  decide

/-- Claim C2 (amended): when the marker is absent, `main` always enters the
acquisition branch, even if the source directory exists; but
`fetch_chromium_source` itself skips the fetch whenever the directory
exists, so the clone command is actually run exactly when the directory is
also absent. -/
theorem marker_absent_forces_branch_not_clone (dirExists : Bool) (r : SpawnResult) :
    provisioningNeeded dirExists false = true ∧
    (dirExists = true → fetch_chromium_source_decision dirExists false r = .skippedExisting) ∧
    cloneCommandRuns dirExists false false = !dirExists := by
  refine ⟨by cases dirExists <;> rfl, ?_, by cases dirExists <;> rfl⟩
  intro h
  subst h
  rfl

/-- Witness for the amended C2 at a concrete spawn result. -/
theorem marker_absent_forces_branch_not_clone_witness :
    fetch_chromium_source_decision true false (.status 7) = .skippedExisting :=
  (marker_absent_forces_branch_not_clone true (.status 7)).2.1 rfl

/-- Claim C3: on the spec's first test vector the translator emits the two
tokens in the stated order, but the first one is `is_optimized=False` with
Python's capital `F` (the interpolated bool is rendered by `str`), not the
claimed `is_optimized=false`. -/
theorem apply_build_flags_O0_all_off_eval :
    apply_build_flags buildO0AllOff = .ok ["is_optimized=False", "is_debug=false"] ∧
    apply_build_flags buildO0AllOff ≠ .ok ["is_optimized=false", "is_debug=false"] := by
  refine ⟨rfl, ?_⟩
  have h : apply_build_flags buildO0AllOff = .ok ["is_optimized=False", "is_debug=false"] := rfl
  rw [h]
  simp

/-- Claim C4: the first emitted token is an `is_optimized` token whose value
tracks `optimization_level != "O0"`, but it is capitalised `False` / `True`
(Python bool rendering), not the claimed lowercase, and it is emitted only
when `optimization_level` is truthy: with an empty level the first token is
the `is_debug` one. -/
theorem apply_build_flags_first_token_eval :
    (apply_build_flags buildO0AllOff).map List.head? = .ok (some "is_optimized=False") ∧
    (apply_build_flags buildO1AllOff).map List.head? = .ok (some "is_optimized=True") ∧
    (apply_build_flags buildEmptyLevel).map List.head? = .ok (some "is_debug=false") :=
  ⟨rfl, rfl, rfl⟩

/-- Claim C5: the monitor cannot report a stall before process exit.  The
stall comparison uses the `last_output_time` assigned in the same loop
iteration (both clock samples are taken back to back, with no blocking call
between them), and during a silent gap the loop is blocked inside `os.read`
and performs no check at all; a trace whose only chunk arrives at time 0 and
is followed by more than `STALL_TIMEOUT` seconds of silence ends in `eof`,
never `stallDetected`. -/
theorem readLoop_cannot_stall :
    (∀ trace : List Chunk, (∀ c ∈ trace, c.tChk = c.tSet) →
      readLoop trace ≠ .stallDetected) ∧
    readLoop [⟨0, 0, 0, "Receiving objects:   1% (1/100)"⟩] = .eof := by
  constructor
  · intro trace h
    induction trace with
    | nil => simp [readLoop]
    | cons c rest ih =>
      have hc : c.tChk = c.tSet := h c (by simp)
      have hrest : ∀ x ∈ rest, x.tChk = x.tSet := fun x hx => h x (by simp [hx])
      have hlt : ¬ (STALL_TIMEOUT < c.tChk - c.tSet) := by
        rw [hc, Nat.sub_self]
        decide
      by_cases hf : containsFatal c.data = true
      · simp [readLoop, hf]
      · simp [readLoop, hf, hlt]
        exact ih hrest
  · rfl

/-- Witness for C5 at a concrete trace with a 300-second gap between chunks. -/
theorem readLoop_cannot_stall_witness :
    readLoop [⟨0, 0, 0, "remote: Counting objects"⟩, ⟨300, 300, 300, "remote: done"⟩] ≠
      .stallDetected :=
  readLoop_cannot_stall.1
    [⟨0, 0, 0, "remote: Counting objects"⟩, ⟨300, 300, 300, "remote: done"⟩] (by decide)

/-- Claim C9 (counterexample): with the target project directory already
present, `create_project_directory` returns `None`, `main` skips the
scaffolding block and falls through, and the process exits 0 — not with a
non-zero status as claimed. -/
theorem existing_dir_exits_zero_counterexample :
    List.contains ["/work/proj"] (pathJoin "/work" "proj") = true ∧
    create_project_directory ["/work/proj"] "proj" "/work" = none ∧
    mainScaffoldExit ["/work/proj"] "proj" "/work" true = 0 :=
  ⟨rfl, rfl, rfl⟩

/-- Claim C9 (amended): when the joined target path already exists,
`create_project_directory` returns `None` and `main` skips project
scaffolding and exits 0; there is no empty-project-name check anywhere — an
empty name only makes the joined path `base_path ++ "/"`, which follows the
same exists-then-skip route.  Non-zero exits come from other fatal steps. -/
theorem existing_dir_skips_and_exits_zero (fs : List String) (name base : String)
    (laterStepFails : Bool) (h : fs.contains (pathJoin base name) = true) :
    create_project_directory fs name base = none ∧
    mainScaffoldExit fs name base laterStepFails = 0 := by
  have hm : pathJoin base name ∈ fs := by simpa using h
  have h1 : create_project_directory fs name base = none := by
    simp [create_project_directory, hm]
  exact ⟨h1, by simp [mainScaffoldExit, h1]⟩

/-- Witness for the amended C9, including the empty-name shape. -/
theorem existing_dir_skips_and_exits_zero_witness :
    create_project_directory ["/home/dev/"] "" "/home/dev" = none ∧
    mainScaffoldExit ["/home/dev/"] "" "/home/dev" false = 0 :=
  existing_dir_skips_and_exits_zero ["/home/dev/"] "" "/home/dev" false rfl

/-- Claim C10: a configuration without a `build` key — the empty mapping
`load_config` yields for a missing file, or a document that passes
`validate_config` with only `metadata` and `paths` — makes the translator
fault with a `KeyError` instead of returning a flag list; and any
configuration on which translation succeeds must have a `build` section
containing all six build keys. -/
theorem apply_build_flags_requires_build_keys :
    apply_build_flags (load_config [] "/proj") = .error "KeyError: build" ∧
    (validate_config (some docMetaPaths) = docMetaPaths ∧
      apply_build_flags docMetaPaths = .error "KeyError: build") ∧
    (∀ config : Json, exceptOk (apply_build_flags config) = true →
      ∃ build, getKey config "build" = .ok build ∧
        exceptOk (getKey build "optimization_level") = true ∧
        exceptOk (getKey build "is_debug") = true ∧
        exceptOk (getKey build "use_jumbo_build") = true ∧
        exceptOk (getKey build "thin_lto") = true ∧
        exceptOk (getKey build "disable_google_update_check") = true ∧
        exceptOk (getKey build "custom_build_flags") = true) := by
  refine ⟨rfl, ⟨rfl, rfl⟩, ?_⟩
  intro config h
  cases hb : getKey config "build" with
  | error e => simp [apply_build_flags, hb, exceptOk] at h
  | ok build =>
    cases h1 : getKey build "optimization_level" with
    | error e => simp [apply_build_flags, hb, h1, exceptOk] at h
    | ok opt =>
      cases h2 : getKey build "is_debug" with
      | error e => simp [apply_build_flags, hb, h1, h2, exceptOk] at h
      | ok dbg =>
        cases h3 : getKey build "use_jumbo_build" with
        | error e => simp [apply_build_flags, hb, h1, h2, h3, exceptOk] at h
        | ok jumbo =>
          cases h4 : getKey build "thin_lto" with
          | error e => simp [apply_build_flags, hb, h1, h2, h3, h4, exceptOk] at h
          | ok lto =>
            cases h5 : getKey build "disable_google_update_check" with
            | error e => simp [apply_build_flags, hb, h1, h2, h3, h4, h5, exceptOk] at h
            | ok gup =>
              cases h6 : getKey build "custom_build_flags" with
              | error e => simp [apply_build_flags, hb, h1, h2, h3, h4, h5, h6, exceptOk] at h
              | ok custom =>
                exact ⟨build, rfl, by simp [h1, exceptOk], by simp [h2, exceptOk],
                  by simp [h3, exceptOk], by simp [h4, exceptOk],
                  by simp [h5, exceptOk], by simp [h6, exceptOk]⟩

/-- Witness for C10 at the default configuration, where translation
succeeds and all six keys are indeed present. -/
theorem apply_build_flags_requires_build_keys_witness :
    exceptOk (apply_build_flags DEFAULT_CONFIG) = true ∧
    (∃ build, getKey DEFAULT_CONFIG "build" = .ok build ∧
      exceptOk (getKey build "optimization_level") = true ∧
      exceptOk (getKey build "is_debug") = true ∧
      exceptOk (getKey build "use_jumbo_build") = true ∧
      exceptOk (getKey build "thin_lto") = true ∧
      exceptOk (getKey build "disable_google_update_check") = true ∧
      exceptOk (getKey build "custom_build_flags") = true) :=
  ⟨rfl, apply_build_flags_requires_build_keys.2.2 DEFAULT_CONFIG rfl⟩

end Jumpstart
